import Mathlib

/-!
Verification of the MCTS core of the Go engine in this repository
(`UCTNode.cpp` / `UCTNode.h` and the configuration defaults in `GTP.cpp`).

Shallow embedding conventions:
* C++ `float`/`double` are modelled as exact rationals `ℚ` (the claims are
  about the algebraic structure of the computations, not float rounding).
* `int` counters that are only ever incremented from 0 (`m_visits`) are `ℕ`;
  `m_virtual_loss` is `ℤ`.
* The atomic operations are modelled as pure state transformers on a node
  value; concurrency interleavings are represented by quantifying over the
  observable field values.
* `m_children` holds `ChildSlot`s.  The `UCTNodePointer` class itself is not
  among the provided sources (only `UCTNode.h` / `UCTNode.cpp` are), so the
  slot read-through accessors are modelled from the spec's ChildSlot
  description (§3, §5): an un-inflated slot carries only `(move, prior)`,
  reports zero visits and is valid/active by default; an inflated slot reads
  through to the owned node's fields.
-/

namespace LZ

/-- Side to move (`FastBoard::BLACK` / `FastBoard::WHITE`). -/
inductive Color where
  | black
  | white
deriving DecidableEq, Repr

/-- `UCTNode::Status` from `UCTNode.h`. -/
inductive Status where
  | INVALID
  | PRUNED
  | ACTIVE
deriving DecidableEq, Repr

/-- `UCTNode::ExpandState` from `UCTNode.h`. -/
inductive ExpandState where
  | INITIAL
  | EXPANDING
  | EXPANDED
deriving DecidableEq, Repr

/-- `FastBoard::PASS` sentinel vertex. -/
def PASS : ℤ := -1

/-- Observable statistics of an inflated child node (the fields of the owned
`UCTNode` that the selection and move-selection code reads). -/
structure ChildStats where
  m_visits : ℕ
  m_virtual_loss : ℤ
  m_blackevals : ℚ
  m_status : Status
  m_expand_state : ExpandState
  m_static_sp : ℚ
  m_min_psa_ratio_children : ℚ
deriving DecidableEq, Repr

/-- Modelled from the spec: a `ChildSlot` (the `UCTNodePointer` of the source,
whose own implementation file is not among the provided sources) always
carries `(move, prior)` and optionally owns an inflated node. -/
structure ChildSlot where
  m_move : ℤ
  m_policy : ℚ
  inflated : Option ChildStats
deriving DecidableEq, Repr

/-- A `UCTNode` with the fields read or written by the verified operations.
The tree is flattened one level: the node's own statistics plus the slots of
its children (the claims under verification never inspect grandchildren). -/
structure UCTNode where
  m_move : ℤ
  m_policy : ℚ
  m_static_sp : ℚ
  m_virtual_loss : ℤ
  m_visits : ℕ
  m_net_eval : ℚ
  m_blackevals : ℚ
  m_status : Status
  m_expand_state : ExpandState
  m_min_psa_ratio_children : ℚ
  m_children : List ChildSlot
  case_three : Bool
  case_three_move : ℤ
  case_three_winrate : ℚ
deriving DecidableEq, Repr

/-- Common core of `UCTNode::get_raw_eval`: the virtual-loss adjusted mean of
the black point-of-view evaluations, flipped for White.  (`float` arithmetic
modelled exactly over `ℚ`; division by zero yields Lean's junk value `0` and
is excluded by the callers' preconditions, see the safety theorems.) -/
def rawEvalCore (visits : ℕ) (blackevals : ℚ) (tomove : Color)
    (virtual_loss : ℤ) : ℚ :=
  let visits' : ℤ := (visits : ℤ) + virtual_loss
  let blackeval : ℚ :=
    blackevals + (if tomove = Color.white then (virtual_loss : ℚ) else 0)
  let e : ℚ := blackeval / (visits' : ℚ)
  if tomove = Color.white then 1 - e else e

/-- Guarded variant of `rawEvalCore` recording the division precondition of
`UCTNode::get_raw_eval` (its `assert(visits > 0)`): `none` exactly when the
divisor `visits + virtual_loss` is not positive. -/
def rawEvalCoreChecked (visits : ℕ) (blackevals : ℚ) (tomove : Color)
    (virtual_loss : ℤ) : Option ℚ :=
  if 0 < (visits : ℤ) + virtual_loss then
    some (rawEvalCore visits blackevals tomove virtual_loss)
  else
    none

namespace UCTNode

/-- `UCTNode::get_visits`. -/
def get_visits (n : UCTNode) : ℕ := n.m_visits

/-- `UCTNode::get_raw_eval(tomove, virtual_loss)`. -/
def get_raw_eval (n : UCTNode) (tomove : Color) (virtual_loss : ℤ) : ℚ :=
  rawEvalCore n.m_visits n.m_blackevals tomove virtual_loss

/-- `UCTNode::get_eval(tomove)` = `get_raw_eval(tomove, m_virtual_loss)`. -/
def get_eval (n : UCTNode) (tomove : Color) : ℚ :=
  n.get_raw_eval tomove n.m_virtual_loss

/-- `UCTNode::get_net_eval(tomove)`. -/
def get_net_eval (n : UCTNode) (tomove : Color) : ℚ :=
  if tomove = Color.white then 1 - n.m_net_eval else n.m_net_eval

/-- `UCTNode::valid()`: status is not INVALID. -/
def valid (n : UCTNode) : Bool := n.m_status ≠ Status.INVALID

/-- `UCTNode::active()`: status is ACTIVE. -/
def active (n : UCTNode) : Bool := n.m_status = Status.ACTIVE

/-- `UCTNode::invalidate()`. -/
def invalidate (n : UCTNode) : UCTNode := { n with m_status := Status.INVALID }

/-- `UCTNode::set_active(active)`: writes the status only if still valid. -/
def set_active (n : UCTNode) (active : Bool) : UCTNode :=
  if n.valid then
    { n with m_status := if active then Status.ACTIVE else Status.PRUNED }
  else
    n

end UCTNode

namespace ChildStats

/-- `UCTNode::get_eval` of the owned child node. -/
def get_eval (st : ChildStats) (tomove : Color) : ℚ :=
  rawEvalCore st.m_visits st.m_blackevals tomove st.m_virtual_loss

end ChildStats

namespace ChildSlot

/-- Modelled from the spec: slot visit count; an un-inflated slot has never
been visited. -/
def get_visits (c : ChildSlot) : ℕ :=
  match c.inflated with
  | none => 0
  | some st => st.m_visits

/-- Modelled from the spec: slot validity; an un-inflated slot is valid. -/
def valid (c : ChildSlot) : Bool :=
  match c.inflated with
  | none => true
  | some st => st.m_status ≠ Status.INVALID

/-- Modelled from the spec: slot activity; an un-inflated slot is active. -/
def active (c : ChildSlot) : Bool :=
  match c.inflated with
  | none => true
  | some st => st.m_status = Status.ACTIVE

/-- The prior stored in the slot (same value as the inflated node's policy). -/
def get_policy (c : ChildSlot) : ℚ := c.m_policy

/-- The move stored in the slot. -/
def get_move (c : ChildSlot) : ℤ := c.m_move

/-- Whether the slot owns a full node. -/
def is_inflated (c : ChildSlot) : Bool := c.inflated.isSome

/-- Read-through to the owned node's `get_eval`; only ever called by the
source on visited (hence inflated) children, `0` is the junk value for the
un-inflated case. -/
def get_eval (c : ChildSlot) (tomove : Color) : ℚ :=
  match c.inflated with
  | none => 0
  | some st => st.get_eval tomove

/-- Read-through to the owned node's static policy snapshot. -/
def get_static_sp (c : ChildSlot) : ℚ :=
  match c.inflated with
  | none => 0
  | some st => st.m_static_sp

/-- The owned node's expand state (only consulted on inflated slots). -/
def expand_state (c : ChildSlot) : ExpandState :=
  match c.inflated with
  | none => ExpandState.INITIAL
  | some st => st.m_expand_state

end ChildSlot

/-! ### Configuration defaults (`GTP::setup_default_parameters` in the source) -/

/-- `cfg_puct = 0.8f`. -/
def cfg_puct_default : ℚ := 4/5

/-- `cfg_fpu_reduction = 0.25f` (and `cfg_fpu_root_reduction` defaults to it). -/
def cfg_fpu_reduction_default : ℚ := 1/4

/-- `UCTNode::c_param = 0.8`. -/
def c_param : ℚ := 4/5

/-- `UCTNode::t_dif = 0.03 * c_param`. -/
def t_dif : ℚ := 3/100 * c_param

/-- `UCTNode::t_max = 0.60`. -/
def t_max : ℚ := 3/5

/-- `UCTNode::t_min = 0.40`. -/
def t_min : ℚ := 2/5

/-- `UCTNode::t_uniq = 0.08 * c_param`. -/
def t_uniq : ℚ := 8/100 * c_param

/-! ### PUCT selection (`UCTNode::uct_select_child`) -/

namespace UCTNode

/-- The `parentvisits` accumulator of `uct_select_child`: sum of visit counts
over the valid children. -/
def parentvisits (n : UCTNode) : ℕ :=
  ((n.m_children.filter fun c => c.valid).map ChildSlot.get_visits).sum

/-- The `total_visited_policy` accumulator of `uct_select_child`: sum of the
priors of the valid children that have at least one visit. -/
def total_visited_policy (n : UCTNode) : ℚ :=
  ((n.m_children.filter fun c => c.valid && decide (0 < c.get_visits)).map
    ChildSlot.get_policy).sum

end UCTNode

/-- The per-child value computed inside the selection loop of
`uct_select_child`, with the loop-invariant quantities (`fpu_red` =
`fpu_reduction`, `fpu_eval`, `numerator`) precomputed by the caller:
`winrate + cfg_puct * psa * (numerator / (1 + visits))` where `winrate` is
`-1 - fpu_reduction` for an inflated child in EXPANDING state, the child's
virtual-loss adjusted eval if it has visits, and the FPU estimate
otherwise. -/
def childValue (cfg_puct fpu_red fpu_eval numerator : ℚ) (color : Color)
    (c : ChildSlot) : ℚ :=
  let winrate : ℚ :=
    if c.is_inflated = true ∧ c.expand_state = ExpandState.EXPANDING then
      -1 - fpu_red
    else if 0 < c.get_visits then c.get_eval color
    else fpu_eval
  winrate + cfg_puct * c.get_policy * (numerator / (1 + (c.get_visits : ℚ)))

/-- The `best` / `best_value` selection loop of `uct_select_child`: skip
inactive children; replace the current best exactly when the candidate's
value is strictly greater (`value > best_value`), so the first child
attaining the maximum is kept.  (`best_value` is always the value of `best`,
so the cached value is not tracked separately.) -/
def selectLoop (value : ChildSlot → ℚ) :
    List ChildSlot → Option ChildSlot → Option ChildSlot
  | [], best => best
  | c :: rest, none =>
    if c.active = true then selectLoop value rest (some c)
    else selectLoop value rest none
  | c :: rest, some b =>
    if c.active = true then
      if value b < value c then selectLoop value rest (some c)
      else selectLoop value rest (some b)
    else selectLoop value rest (some b)

/-- `UCTNode::uct_select_child(color, is_root)`.  The square root on visit
counts and summed priors is an abstract parameter `sq` (both the source and
the spec apply the same `std::sqrt`); `cfg_puct`, `cfg_fpu_reduction` and
`cfg_fpu_root_reduction` are passed explicitly.  Returns the selected child
slot (the source then inflates it and returns the node). -/
def uct_select_child (sq : ℚ → ℚ) (cfg_puct cfg_fpu cfg_fpu_root : ℚ)
    (n : UCTNode) (color : Color) (is_root : Bool) : Option ChildSlot :=
  let numerator : ℚ := sq ((n.parentvisits : ℚ))
  let fpu_red : ℚ :=
    (if is_root then cfg_fpu_root else cfg_fpu) * sq n.total_visited_policy
  let fpu_eval : ℚ := n.get_net_eval color - fpu_red
  selectLoop (childValue cfg_puct fpu_red fpu_eval numerator color)
    n.m_children none

/-! ### `NodeComp` and `UCTNode::get_best_root_child` -/

/-- The `NodeComp` strict-weak-order functor: compare on visits when they
differ, on policy prior when both are unvisited, else on eval. -/
def nodeComp (color : Color) (a b : ChildSlot) : Bool :=
  if a.get_visits ≠ b.get_visits then decide (a.get_visits < b.get_visits)
  else if a.get_visits = 0 then decide (a.get_policy < b.get_policy)
  else decide (a.get_eval color < b.get_eval color)

/-- `UCTNode::get_best_root_child(color)`: `std::max_element` over all
children under `NodeComp` (the first maximal element; the current maximum is
replaced exactly when the comparator ranks it strictly below the
candidate). -/
def get_best_root_child (n : UCTNode) (color : Color) : Option ChildSlot :=
  match n.m_children with
  | [] => none
  | c :: rest =>
    some (rest.foldl (fun best x => if nodeComp color best x then x else best) c)

/-! ### Strength control: `UCTNode::accord_case_three` (Case C) -/

/-- The scan of `accord_case_three` over the children.  State is
`(_sp, case_three_move, case_three_winrate)`; a child updates the state
exactly when its eval reaches the threshold and its static prior strictly
exceeds the running `_sp`. -/
def c3Loop (color : Color) (threshold : ℚ) :
    List ChildSlot → ℚ × ℤ × ℚ → ℚ × ℤ × ℚ
  | [], s => s
  | c :: rest, (sp, mv, wr) =>
    if threshold ≤ c.get_eval color ∧ sp < c.get_static_sp then
      c3Loop color threshold rest (c.get_static_sp, c.get_move, c.get_eval color)
    else c3Loop color threshold rest (sp, mv, wr)

/-- `UCTNode::accord_case_three(color, threshold)`: sets `case_three` and
scans the children, recording the move and winrate of the child with the
largest static prior among those whose eval reaches the threshold (`_sp`
starts at 0, so only strictly positive static priors ever qualify; when no
child updates the scan, `case_three_move` / `case_three_winrate` keep their
previous values). -/
def UCTNode.accord_case_three (n : UCTNode) (color : Color) (threshold : ℚ) :
    UCTNode :=
  let r := c3Loop color threshold n.m_children
    (0, n.case_three_move, n.case_three_winrate)
  { n with case_three := true, case_three_move := r.2.1,
           case_three_winrate := r.2.2 }

/-! ### Strength control: `UCTNode::accord_case_three_one` (Case D) -/

/-- The four winrate/static-prior band tests of `accord_case_three_one`
(`allowedProb1..4` are the thresholds `W1 - 0.03*C`, `W1 - 0.04*C`,
`W1 - 0.06*C`, `W1 - 0.08*C`; the policy bounds are the literals
`0.40/0.20/0.10/0.05` of the source; the last band has no upper winrate
bound in the source). -/
def c31BandHit (aP1 aP2 aP3 aP4 prob policy : ℚ) : Prop :=
  (aP4 ≤ prob ∧ prob ≤ aP3 ∧ 2/5 ≤ policy) ∨
  (aP3 ≤ prob ∧ prob ≤ aP2 ∧ 1/5 ≤ policy) ∨
  (aP2 ≤ prob ∧ prob ≤ aP1 ∧ 1/10 ≤ policy) ∨
  (aP1 ≤ prob ∧ 1/20 < policy)

instance (aP1 aP2 aP3 aP4 prob policy : ℚ) :
    Decidable (c31BandHit aP1 aP2 aP3 aP4 prob policy) := by
  unfold c31BandHit; infer_instance

/-- The scan of `accord_case_three_one` over the children.  State is
`(case_three, case_three_move, case_three_winrate)`.  The source runs the
four band blocks in sequence; each block performs the identical update
(`case_three := true`, and take the child's move/winrate when its winrate is
strictly below the running one), and the update is idempotent within one
child, so the four blocks are combined into the disjunction `c31BandHit`
followed by a single update. -/
def c31Loop (color : Color) (aP1 aP2 aP3 aP4 : ℚ) :
    List ChildSlot → Bool × ℤ × ℚ → Bool × ℤ × ℚ
  | [], s => s
  | c :: rest, (flag, mv, wr) =>
    if 10 ≤ c.get_visits ∧
        c31BandHit aP1 aP2 aP3 aP4 (c.get_eval color) c.get_static_sp then
      if c.get_eval color < wr then
        c31Loop color aP1 aP2 aP3 aP4 rest (true, c.get_move, c.get_eval color)
      else
        c31Loop color aP1 aP2 aP3 aP4 rest (true, mv, wr)
    else c31Loop color aP1 aP2 aP3 aP4 rest (flag, mv, wr)

/-- `UCTNode::accord_case_three_one(color, lastmove)` (the `lastmove`
argument is unused by the live code; the distance-based variant is commented
out in the source).  `case_three_move`/`case_three_winrate` start at the
first child's move and eval; only children with at least 10 visits that hit
one of the four bands update them, and only with strictly lower winrates.
The source reads the first child unconditionally, so the empty-children case
(undefined behavior in the source) leaves the node unchanged here. -/
def UCTNode.accord_case_three_one (n : UCTNode) (color : Color) : UCTNode :=
  match n.m_children with
  | [] => n
  | c0 :: _ =>
    let W1 := c0.get_eval color
    let aP1 := W1 - 3/100 * c_param
    let aP2 := W1 - 4/100 * c_param
    let aP3 := W1 - 6/100 * c_param
    let aP4 := W1 - 8/100 * c_param
    let r := c31Loop color aP1 aP2 aP3 aP4 n.m_children
      (n.case_three, c0.get_move, W1)
    { n with case_three := r.1, case_three_move := r.2.1,
             case_three_winrate := r.2.2 }

/-! ### Expansion: `UCTNode::create_children` / `link_nodelist` and the
expand-state operations -/

/-- `UCTNode::expandable(min_psa_ratio)`. -/
def UCTNode.expandable (n : UCTNode) (min_psa_ratio : ℚ) : Bool :=
  min_psa_ratio < n.m_min_psa_ratio_children

/-- `UCTNode::acquire_expanding()`: compare-and-swap INITIAL → EXPANDING;
returns whether the CAS succeeded. -/
def UCTNode.acquire_expanding (n : UCTNode) : Bool × UCTNode :=
  if n.m_expand_state = ExpandState.INITIAL then
    (true, { n with m_expand_state := ExpandState.EXPANDING })
  else (false, n)

/-- `UCTNode::expand_done()`: unconditional exchange to EXPANDED (the source
asserts the previous state was EXPANDING). -/
def UCTNode.expand_done (n : UCTNode) : UCTNode :=
  { n with m_expand_state := ExpandState.EXPANDED }

/-- `UCTNode::expand_cancel()`: unconditional exchange to INITIAL (the
source asserts the previous state was EXPANDING). -/
def UCTNode.expand_cancel (n : UCTNode) : UCTNode :=
  { n with m_expand_state := ExpandState.INITIAL }

/-- Strict `std::pair` comparison `(prior, vertex) < (prior, vertex)`
(lexicographic), as used by the `std::stable_sort` in `link_nodelist`. -/
def pairLt (a b : ℚ × ℤ) : Bool :=
  decide (a.1 < b.1) || (decide (a.1 = b.1) && decide (a.2 < b.2))

/-- Insert into a descending-sorted list (descending in the lexicographic
pair order). -/
def insertDesc (a : ℚ × ℤ) : List (ℚ × ℤ) → List (ℚ × ℤ)
  | [] => [a]
  | b :: l => if pairLt a b then b :: insertDesc a l else a :: b :: l

/-- The `std::stable_sort(rbegin(nodelist), rend(nodelist))` of
`link_nodelist`: sorts the `(prior, vertex)` pairs into descending
lexicographic order.  The pair order is total and antisymmetric, so equal
keys are equal pairs and the descending sorted permutation is unique; an
insertion sort therefore produces exactly the source's result. -/
def sortDesc : List (ℚ × ℤ) → List (ℚ × ℤ)
  | [] => []
  | a :: l => insertDesc a (sortDesc l)

/-- `UCTNode::link_nodelist(nodecount, nodelist, min_psa_ratio)`: sort the
`(prior, vertex)` list best-to-worst, then append to `m_children` a slot for
every entry with prior in `[max_psa * min_psa_ratio, max_psa *
m_min_psa_ratio_children)`; entries below the new threshold mark the node as
still not fully expanded.  (The global `nodecount` side effect is not
modelled.) -/
def UCTNode.link_nodelist (n : UCTNode) (nodelist : List (ℚ × ℤ))
    (min_psa_ratio : ℚ) : UCTNode :=
  match sortDesc nodelist with
  | [] => n
  | top :: rest =>
    let sorted := top :: rest
    let max_psa := top.1
    let old_min_psa := max_psa * n.m_min_psa_ratio_children
    let new_min_psa := max_psa * min_psa_ratio
    let skipped := sorted.any fun p => decide (p.1 < new_min_psa)
    let newkids := (sorted.filter fun p =>
        !decide (p.1 < new_min_psa) && decide (p.1 < old_min_psa)).map
      fun p => ChildSlot.mk p.2 p.1 none
    { n with m_children := n.m_children ++ newkids,
             m_min_psa_ratio_children :=
               if skipped then min_psa_ratio else 0 }

/-- The output of the network for one position, as consumed by
`create_children`: the winrate (side to move), the `(prior, vertex)` pairs
of the legal moves in board scan order, and the pass prior.  The network and
the Go rules are external collaborators of the core (spec §1), so this is
the boundary of the embedding. -/
structure NetResult where
  winrate : ℚ
  legal_policy : List (ℚ × ℤ)
  policy_pass : ℚ
deriving DecidableEq, Repr

/-- `UCTNode::create_children(network, nodecount, state, eval,
min_psa_ratio)`.  `passes` is `state.get_passes()`, `white_to_move` is
`state.board.white_to_move()`, and `net` is what the network returns for the
position.  Returns the C++ return value paired with the updated node.  The
`legal_sum > std::numeric_limits<float>::min()` test is modelled as
positivity of the exact sum. -/
def UCTNode.create_children (net : NetResult) (passes : ℕ)
    (white_to_move : Bool) (n : UCTNode) (min_psa_ratio : ℚ) :
    Bool × UCTNode :=
  if 2 ≤ passes then (false, n)
  else if ¬ n.m_expand_state = ExpandState.INITIAL then (false, n)
  else
    let n1 := { n with m_expand_state := ExpandState.EXPANDING }
    if ¬ min_psa_ratio < n1.m_min_psa_ratio_children then
      (false, n1.expand_done)
    else
      let net_eval := if white_to_move then 1 - net.winrate else net.winrate
      let nodelist0 := net.legal_policy ++ [(net.policy_pass, PASS)]
      let legal_sum := (nodelist0.map Prod.fst).sum
      let nodelist :=
        if 0 < legal_sum then
          nodelist0.map fun p => (p.1 / legal_sum, p.2)
        else
          nodelist0.map fun p => ((1 : ℚ) / (nodelist0.length : ℚ), p.2)
      let n2 := { n1 with m_net_eval := net_eval }
      let n3 := n2.link_nodelist nodelist min_psa_ratio
      (true, n3.expand_done)

/-- `UCTNode::count_nodes_and_clear_expand_state()`, restricted to the
node-count-free expand-state effect and to the one level of tree depth the
model carries: reset the node's own expand state to INITIAL when it is still
expandable (`expandable()` with the default ratio 0), and do the same for
every inflated child. -/
def clearChildExpand (st : ChildStats) : ChildStats :=
  if 0 < st.m_min_psa_ratio_children then
    { st with m_expand_state := ExpandState.INITIAL }
  else st

/-- See `clearChildExpand`; the top-level node's part of
`count_nodes_and_clear_expand_state`. -/
def UCTNode.count_nodes_and_clear_expand_state (n : UCTNode) : UCTNode :=
  let n' :=
    if n.expandable 0 then { n with m_expand_state := ExpandState.INITIAL }
    else n
  { n' with m_children := n'.m_children.map fun c =>
      { c with inflated := c.inflated.map clearChildExpand } }

/-- The operations of the source that write a node's `m_expand_state`. -/
inductive NodeOp where
  | acquireExpanding
  | expandDone
  | expandCancel
  | clearExpand
deriving DecidableEq, Repr

/-- Apply one expand-state-writing operation to a node. -/
def applyOp : NodeOp → UCTNode → UCTNode
  | NodeOp.acquireExpanding, n => (n.acquire_expanding).2
  | NodeOp.expandDone, n => n.expand_done
  | NodeOp.expandCancel, n => n.expand_cancel
  | NodeOp.clearExpand, n => n.count_nodes_and_clear_expand_state

/-- The transition set asserted by the spec: INITIAL→EXPANDING,
EXPANDING→EXPANDED, EXPANDING→INITIAL, or staying put. -/
def claimAllowedTransition (s s' : ExpandState) : Prop :=
  s = s' ∨
  (s = ExpandState.INITIAL ∧ s' = ExpandState.EXPANDING) ∨
  (s = ExpandState.EXPANDING ∧ s' = ExpandState.EXPANDED) ∨
  (s = ExpandState.EXPANDING ∧ s' = ExpandState.INITIAL)

instance (s s' : ExpandState) : Decidable (claimAllowedTransition s s') := by
  unfold claimAllowedTransition; infer_instance

/-! ### Spec-side definitions

The following definitions transcribe claim sentences word for word, to be
compared against the source embeddings above.  They are the only
definitions in this file that follow the spec text rather than the
source. -/

/-- The PUCT value of a child as the spec words it, with the EXPANDING case
taking precedence where the spec cases overlap (an inflated EXPANDING child
with zero visits); the FPU reduction sums the priors of the *valid* children
with at least one visit (the amended reading). -/
def specValueC1 (sq : ℚ → ℚ) (cfg_puct cfg_fpu cfg_fpu_root : ℚ)
    (n : UCTNode) (color : Color) (is_root : Bool) (c : ChildSlot) : ℚ :=
  let fpu_red : ℚ :=
    (if is_root then cfg_fpu_root else cfg_fpu) * sq n.total_visited_policy
  let winrate : ℚ :=
    if c.is_inflated = true ∧ c.expand_state = ExpandState.EXPANDING then
      -1 - fpu_red
    else if 0 < c.get_visits then c.get_eval color
    else n.get_net_eval color - fpu_red
  winrate + cfg_puct * c.get_policy *
    (sq ((n.parentvisits : ℚ)) / (1 + (c.get_visits : ℚ)))

/-- The claim's `total_visited_prior` taken literally: "the sum of priors of
children with at least one visit", with no validity filter. -/
def total_visited_policy_claim (n : UCTNode) : ℚ :=
  ((n.m_children.filter fun c => decide (0 < c.get_visits)).map
    ChildSlot.get_policy).sum

/-- The PUCT value of a child exactly as claim C1 words it: as
`specValueC1` but with the FPU reduction computed from
`total_visited_policy_claim` (no validity filter on the prior sum). -/
def claimValueC1 (sq : ℚ → ℚ) (cfg_puct cfg_fpu cfg_fpu_root : ℚ)
    (n : UCTNode) (color : Color) (is_root : Bool) (c : ChildSlot) : ℚ :=
  let fpu_red : ℚ :=
    (if is_root then cfg_fpu_root else cfg_fpu) * sq (total_visited_policy_claim n)
  let winrate : ℚ :=
    if c.is_inflated = true ∧ c.expand_state = ExpandState.EXPANDING then
      -1 - fpu_red
    else if 0 < c.get_visits then c.get_eval color
    else n.get_net_eval color - fpu_red
  winrate + cfg_puct * c.get_policy *
    (sq ((n.parentvisits : ℚ)) / (1 + (c.get_visits : ℚ)))

/-- Claim C2's Case C selector taken literally: among children with winrate
at least `threshold = W1 - T_DIF` AND at least 10 visits, the move of the
one with the highest static prior (earliest on ties; the claim states no
tie rule, and the counterexample input has a unique maximizer); the top
child's move if none qualifies. -/
def selectC2spec (n : UCTNode) (color : Color) (threshold : ℚ) : Option ℤ :=
  let qual := n.m_children.filter fun c =>
    decide (threshold ≤ c.get_eval color) && decide (10 ≤ c.get_visits)
  match qual with
  | [] => (n.m_children.head?).map ChildSlot.get_move
  | c :: rest =>
    some ((rest.foldl
      (fun b x => if b.get_static_sp < x.get_static_sp then x else b)
      c).get_move)

/-- Claim C3's four candidate bands taken literally (each delta is
`0.03/0.04/0.06/0.08` times `0.8`; the top band is capped above by `W1`). -/
def c3BandHitSpec (W1 prob policy : ℚ) : Prop :=
  (W1 - 8/125 ≤ prob ∧ prob ≤ W1 - 6/125 ∧ 2/5 ≤ policy) ∨
  (W1 - 6/125 ≤ prob ∧ prob ≤ W1 - 4/125 ∧ 1/5 ≤ policy) ∨
  (W1 - 4/125 ≤ prob ∧ prob ≤ W1 - 3/125 ∧ 1/10 ≤ policy) ∨
  (W1 - 3/125 ≤ prob ∧ prob ≤ W1 ∧ 1/20 < policy)

instance (W1 prob policy : ℚ) : Decidable (c3BandHitSpec W1 prob policy) := by
  unfold c3BandHitSpec; infer_instance

/-- Claim C3's Case D selector taken literally: candidates are the children
with at least 10 visits hitting one of the bands; play the candidate with
the lowest winrate (earliest on ties), or the top child if none
qualifies. -/
def selectC3spec (n : UCTNode) (color : Color) : Option ℤ :=
  match n.m_children with
  | [] => none
  | c0 :: _ =>
    let W1 := c0.get_eval color
    let cands := n.m_children.filter fun c =>
      decide (10 ≤ c.get_visits) &&
      decide (c3BandHitSpec W1 (c.get_eval color) c.get_static_sp)
    match cands with
    | [] => some c0.get_move
    | c :: rest =>
      some ((rest.foldl
        (fun b x => if x.get_eval color < b.get_eval color then x else b)
        c).get_move)

/-- The candidate predicate of the `accord_case_three_one` scan: at least 10
visits and one of the four winrate/static-prior bands hit. -/
def c31Cand (color : Color) (aP1 aP2 aP3 aP4 : ℚ) (c : ChildSlot) : Prop :=
  10 ≤ c.get_visits ∧
  c31BandHit aP1 aP2 aP3 aP4 (c.get_eval color) c.get_static_sp

instance (color : Color) (aP1 aP2 aP3 aP4 : ℚ) (c : ChildSlot) :
    Decidable (c31Cand color aP1 aP2 aP3 aP4 c) := by
  unfold c31Cand; infer_instance

/-- Concrete node for the C7 witness: 2 visits, virtual loss 1, black eval
sum 3/2. -/
def nodeW7 : UCTNode :=
  { m_move := 0, m_policy := 0, m_static_sp := 0, m_virtual_loss := 1,
    m_visits := 2, m_net_eval := 1/2, m_blackevals := 3/2,
    m_status := Status.ACTIVE, m_expand_state := ExpandState.EXPANDED,
    m_min_psa_ratio_children := 0, m_children := [], case_three := false,
    case_three_move := 0, case_three_winrate := 0 }

/-! ### Claim C8: color-flip law -/

/-- Concrete node refuting C8 as stated: 1 visit, virtual loss 3, black
eval sum 1/2 (a node mid-simulation, with one in-flight searcher holding a
virtual loss on it). -/
def nodeC8 : UCTNode :=
  { m_move := 0, m_policy := 0, m_static_sp := 0, m_virtual_loss := 3,
    m_visits := 1, m_net_eval := 1/2, m_blackevals := 1/2,
    m_status := Status.ACTIVE, m_expand_state := ExpandState.EXPANDED,
    m_min_psa_ratio_children := 0, m_children := [], case_three := false,
    case_three_move := 0, case_three_winrate := 0 }

/-- Concrete node for the C8 witness: 1 visit, no virtual loss. -/
def nodeW8 : UCTNode :=
  { m_move := 0, m_policy := 0, m_static_sp := 0, m_virtual_loss := 0,
    m_visits := 1, m_net_eval := 1/2, m_blackevals := 1/2,
    m_status := Status.ACTIVE, m_expand_state := ExpandState.EXPANDED,
    m_min_psa_ratio_children := 0, m_children := [], case_three := false,
    case_three_move := 0, case_three_winrate := 0 }

/-! ### Claim C10: the division in `get_raw_eval` is guarded in
`uct_select_child` -/

/-- The per-child value of the selection loop with the eval read guarded:
`none` exactly when the child's eval would be read with a nonpositive
divisor `visits + virtual_loss` (`get_raw_eval`'s `assert(visits > 0)`
precondition), or read through an un-inflated slot. -/
def childValueChecked (cfg_puct fpu_red fpu_eval numerator : ℚ)
    (color : Color) (c : ChildSlot) : Option ℚ :=
  let winrate? : Option ℚ :=
    if c.is_inflated = true ∧ c.expand_state = ExpandState.EXPANDING then
      some (-1 - fpu_red)
    else if 0 < c.get_visits then
      match c.inflated with
      | none => none
      | some st =>
        rawEvalCoreChecked st.m_visits st.m_blackevals color st.m_virtual_loss
    else some fpu_eval
  winrate?.map fun w =>
    w + cfg_puct * c.get_policy * (numerator / (1 + (c.get_visits : ℚ)))

/-- Statistics of the inflated child used in the C10 witness: one visit,
no virtual loss. -/
def statsW10 : ChildStats :=
  { m_visits := 1, m_virtual_loss := 0, m_blackevals := 1/2,
    m_status := Status.ACTIVE, m_expand_state := ExpandState.EXPANDED,
    m_static_sp := 0, m_min_psa_ratio_children := 0 }

/-- Concrete child slot for the C10 witness: inflated, one visit, no
virtual loss. -/
def slotW10 : ChildSlot :=
  { m_move := 6, m_policy := 1/4, inflated := some statsW10 }

/-- An arbitrary network result (the C4 path returns before consulting the
network). -/
def netEmpty : NetResult :=
  { winrate := 1/2, legal_policy := [], policy_pass := 1 }

/-- Child slot present before the C4 call, to witness that the children are
left untouched. -/
def slotC4 : ChildSlot := { m_move := 3, m_policy := 1/2, inflated := none }

/-- Concrete node for C4: INITIAL (e.g. after a
`count_nodes_and_clear_expand_state` reset) with
`m_min_psa_ratio_children = 1/10` recorded from an earlier expansion. -/
def nodeC4 : UCTNode :=
  { m_move := 0, m_policy := 0, m_static_sp := 0, m_virtual_loss := 0,
    m_visits := 1, m_net_eval := 1/2, m_blackevals := 1/2,
    m_status := Status.ACTIVE, m_expand_state := ExpandState.INITIAL,
    m_min_psa_ratio_children := 1/10, m_children := [slotC4],
    case_three := false, case_three_move := 0, case_three_winrate := 0 }

/-- A fresh node (INITIAL, `m_min_psa_ratio_children = 2`, no children). -/
def nodeC5 : UCTNode :=
  { m_move := 0, m_policy := 0, m_static_sp := 0, m_virtual_loss := 0,
    m_visits := 0, m_net_eval := 0, m_blackevals := 0,
    m_status := Status.ACTIVE, m_expand_state := ExpandState.INITIAL,
    m_min_psa_ratio_children := 2, m_children := [], case_three := false,
    case_three_move := 0, case_three_winrate := 0 }

/-- A network result whose renormalized pass prior falls below
`max_psa * 1/10`, so a partial expansion with `min_psa_ratio = 1/10` skips
it. -/
def netC5 : NetResult :=
  { winrate := 1/2, legal_policy := [(1/2, 5), (1/4, 6), (1/5, 7)],
    policy_pass := 1/100 }

/-- The node produced by the partial expansion of `nodeC5`. -/
def nodeC5x : UCTNode :=
  (UCTNode.create_children netC5 0 false nodeC5 (1/10)).2

/-- Node with a single (active, inflated) child, for the C6 witness. -/
def nodeW6 : UCTNode :=
  { m_move := 0, m_policy := 0, m_static_sp := 0, m_virtual_loss := 0,
    m_visits := 1, m_net_eval := 1/2, m_blackevals := 1/2,
    m_status := Status.ACTIVE, m_expand_state := ExpandState.EXPANDED,
    m_min_psa_ratio_children := 0, m_children := [slotW10],
    case_three := false, case_three_move := 0, case_three_winrate := 0 }

/-- Statistics of an INVALID root child that accumulated 5 visits before
being invalidated (superko pruning after tree reuse). -/
def statsC6inv : ChildStats :=
  { m_visits := 5, m_virtual_loss := 0, m_blackevals := 2,
    m_status := Status.INVALID, m_expand_state := ExpandState.EXPANDED,
    m_static_sp := 0, m_min_psa_ratio_children := 0 }

/-- Statistics of a valid sibling with fewer visits. -/
def statsC6act : ChildStats :=
  { m_visits := 1, m_virtual_loss := 0, m_blackevals := 1/2,
    m_status := Status.ACTIVE, m_expand_state := ExpandState.EXPANDED,
    m_static_sp := 0, m_min_psa_ratio_children := 0 }

/-- The INVALID child slot. -/
def slotC6inv : ChildSlot :=
  { m_move := 11, m_policy := 1/2, inflated := some statsC6inv }

/-- The valid sibling slot. -/
def slotC6act : ChildSlot :=
  { m_move := 12, m_policy := 1/4, inflated := some statsC6act }

/-- Root with the INVALID child first (it has the most visits). -/
def nodeC6 : UCTNode :=
  { m_move := 0, m_policy := 0, m_static_sp := 0, m_virtual_loss := 0,
    m_visits := 6, m_net_eval := 1/2, m_blackevals := 3,
    m_status := Status.ACTIVE, m_expand_state := ExpandState.EXPANDED,
    m_min_psa_ratio_children := 0, m_children := [slotC6inv, slotC6act],
    case_three := false, case_three_move := 0, case_three_winrate := 0 }

/-- Statistics for the C2 witness child: 3 visits, eval 2/3, static prior
1/5. -/
def statsW2 : ChildStats :=
  { m_visits := 3, m_virtual_loss := 0, m_blackevals := 2,
    m_status := Status.ACTIVE, m_expand_state := ExpandState.EXPANDED,
    m_static_sp := 1/5, m_min_psa_ratio_children := 0 }

/-- The C2 witness child slot. -/
def slotW2 : ChildSlot :=
  { m_move := 10, m_policy := 1/2, inflated := some statsW2 }

/-- Node with the single child `slotW2`, for the C2 witness. -/
def nodeW2 : UCTNode :=
  { m_move := 0, m_policy := 0, m_static_sp := 0, m_virtual_loss := 0,
    m_visits := 3, m_net_eval := 1/2, m_blackevals := 2,
    m_status := Status.ACTIVE, m_expand_state := ExpandState.EXPANDED,
    m_min_psa_ratio_children := 0, m_children := [slotW2],
    case_three := false, case_three_move := 0, case_three_winrate := 0 }

/-- Statistics of the C2 counterexample's top child: 100 visits, eval 1/2,
static prior 1/10. -/
def statsC2top : ChildStats :=
  { m_visits := 100, m_virtual_loss := 0, m_blackevals := 50,
    m_status := Status.ACTIVE, m_expand_state := ExpandState.EXPANDED,
    m_static_sp := 1/10, m_min_psa_ratio_children := 0 }

/-- The C2 counterexample's top child slot. -/
def slotC2top : ChildSlot :=
  { m_move := 10, m_policy := 1/2, inflated := some statsC2top }

/-- Statistics of the C2 counterexample's low-visit child: 3 visits, eval
49/100, static prior 3/10. -/
def statsC2low : ChildStats :=
  { m_visits := 3, m_virtual_loss := 0, m_blackevals := 147/100,
    m_status := Status.ACTIVE, m_expand_state := ExpandState.EXPANDED,
    m_static_sp := 3/10, m_min_psa_ratio_children := 0 }

/-- The C2 counterexample's low-visit child slot. -/
def slotC2low : ChildSlot :=
  { m_move := 20, m_policy := 1/4, inflated := some statsC2low }

/-- Root for the C2 counterexample: top child (winrate 1/2, in the
intermediate band `[t_min, t_max]`) followed by a child with only 3 visits,
winrate 49/100 ≥ 1/2 − t_dif, and the larger static prior. -/
def nodeC2 : UCTNode :=
  { m_move := 0, m_policy := 0, m_static_sp := 0, m_virtual_loss := 0,
    m_visits := 103, m_net_eval := 1/2, m_blackevals := 50,
    m_status := Status.ACTIVE, m_expand_state := ExpandState.EXPANDED,
    m_min_psa_ratio_children := 0, m_children := [slotC2top, slotC2low],
    case_three := false, case_three_move := 0, case_three_winrate := 0 }

/-! ### Claim C3: strength control Case D (`accord_case_three_one`) -/

/-- The candidate predicate of `accord_case_three_one` with the four
`allowedProb` thresholds derived from the top winrate `W1`. -/
def c31CandAt (color : Color) (W1 : ℚ) (c : ChildSlot) : Prop :=
  c31Cand color (W1 - 3/100 * c_param) (W1 - 4/100 * c_param)
    (W1 - 6/100 * c_param) (W1 - 8/100 * c_param) c

instance (color : Color) (W1 : ℚ) (c : ChildSlot) :
    Decidable (c31CandAt color W1 c) := by
  unfold c31CandAt; infer_instance

/-- Statistics of the C3 witness child: 100 visits, eval 7/10. -/
def statsW3 : ChildStats :=
  { m_visits := 100, m_virtual_loss := 0, m_blackevals := 70,
    m_status := Status.ACTIVE, m_expand_state := ExpandState.EXPANDED,
    m_static_sp := 1/100, m_min_psa_ratio_children := 0 }

/-- The C3 witness child slot. -/
def slotW3 : ChildSlot :=
  { m_move := 10, m_policy := 1/2, inflated := some statsW3 }

/-- Node with the single child `slotW3`, for the C3 witness. -/
def nodeW3 : UCTNode :=
  { m_move := 0, m_policy := 0, m_static_sp := 0, m_virtual_loss := 0,
    m_visits := 100, m_net_eval := 1/2, m_blackevals := 70,
    m_status := Status.ACTIVE, m_expand_state := ExpandState.EXPANDED,
    m_min_psa_ratio_children := 0, m_children := [slotW3],
    case_three := false, case_three_move := 0, case_three_winrate := 0 }

/-- Statistics of the C3 counterexample's top child: 100 visits, eval 7/10,
static prior 1/100. -/
def statsC3top : ChildStats :=
  { m_visits := 100, m_virtual_loss := 0, m_blackevals := 70,
    m_status := Status.ACTIVE, m_expand_state := ExpandState.EXPANDED,
    m_static_sp := 1/100, m_min_psa_ratio_children := 0 }

/-- The C3 counterexample's top child slot. -/
def slotC3top : ChildSlot :=
  { m_move := 10, m_policy := 1/2, inflated := some statsC3top }

/-- Statistics of the C3 counterexample's second child: 50 visits, eval
7/10 (equal to the top winrate), static prior 1/5. -/
def statsC3low : ChildStats :=
  { m_visits := 50, m_virtual_loss := 0, m_blackevals := 35,
    m_status := Status.ACTIVE, m_expand_state := ExpandState.EXPANDED,
    m_static_sp := 1/5, m_min_psa_ratio_children := 0 }

/-- The C3 counterexample's second child slot. -/
def slotC3low : ChildSlot :=
  { m_move := 20, m_policy := 1/4, inflated := some statsC3low }

/-- Root for the C3 counterexample: winning case (`W1 = 7/10 > t_max`);
the second child hits the top band (winrate `7/10 ∈ [W1 − D1, W1]`, static
prior `1/5 > 0.05`, 50 visits) and is the only claim candidate. -/
def nodeC3 : UCTNode :=
  { m_move := 0, m_policy := 0, m_static_sp := 0, m_virtual_loss := 0,
    m_visits := 150, m_net_eval := 1/2, m_blackevals := 105,
    m_status := Status.ACTIVE, m_expand_state := ExpandState.EXPANDED,
    m_min_psa_ratio_children := 0, m_children := [slotC3top, slotC3low],
    case_three := false, case_three_move := 0, case_three_winrate := 0 }

/-- The square-root function used by the C1 counterexample: the exact
square root on the three values it is applied to (certified inside the
counterexample theorem). -/
def sqrtC1 : ℚ → ℚ := fun q =>
  if q = 1/4 then 1/2 else if q = 9/16 then 3/4 else if q = 1 then 1 else 0

/-- Statistics of the C1 counterexample's INVALID child: 2 visits before
invalidation. -/
def statsC1inv : ChildStats :=
  { m_visits := 2, m_virtual_loss := 0, m_blackevals := 1,
    m_status := Status.INVALID, m_expand_state := ExpandState.EXPANDED,
    m_static_sp := 0, m_min_psa_ratio_children := 0 }

/-- The C1 counterexample's INVALID child slot (prior 5/16, 2 visits). -/
def slotC1inv : ChildSlot :=
  { m_move := 5, m_policy := 5/16, inflated := some statsC1inv }

/-- Statistics of the C1 counterexample's visited active child: 1 visit,
eval 3/10. -/
def statsC1vis : ChildStats :=
  { m_visits := 1, m_virtual_loss := 0, m_blackevals := 3/10,
    m_status := Status.ACTIVE, m_expand_state := ExpandState.EXPANDED,
    m_static_sp := 0, m_min_psa_ratio_children := 0 }

/-- The C1 counterexample's visited active child slot (prior 1/4). -/
def slotC1vis : ChildSlot :=
  { m_move := 6, m_policy := 1/4, inflated := some statsC1vis }

/-- The C1 counterexample's unvisited, un-inflated child slot
(prior 1/16). -/
def slotC1new : ChildSlot :=
  { m_move := 30, m_policy := 1/16, inflated := none }

/-- Root for the C1 counterexample: an INVALID child that was visited twice
before being invalidated, a visited active child, and a fresh slot. -/
def nodeC1 : UCTNode :=
  { m_move := 0, m_policy := 0, m_static_sp := 0, m_virtual_loss := 0,
    m_visits := 3, m_net_eval := 1/2, m_blackevals := 3/2,
    m_status := Status.ACTIVE, m_expand_state := ExpandState.EXPANDED,
    m_min_psa_ratio_children := 0, m_children :=
      [slotC1inv, slotC1vis, slotC1new],
    case_three := false, case_three_move := 0, case_three_winrate := 0 }

/-! ### Theorems -/

/-! ### Characterization of the selection scans -/

/-- Running `selectLoop` with a current best `b`: either nothing beats `b`
and `b` is returned, or the result is the first child of the remaining list
strictly beating `b` and never strictly beaten afterwards. -/
theorem selectLoop_some_spec (value : ChildSlot → ℚ) (l : List ChildSlot) :
    ∀ b : ChildSlot,
      ∃ r, selectLoop value l (some b) = some r ∧
        ((r = b ∧ ∀ c ∈ l, c.active = true → value c ≤ value b) ∨
         (∃ l1 l2, l = l1 ++ r :: l2 ∧ r.active = true ∧ value b < value r ∧
           (∀ c ∈ l1, c.active = true → value c < value r) ∧
           (∀ c ∈ l2, c.active = true → value c ≤ value r))) := by
  induction l with
  | nil =>
    intro b
    exact ⟨b, rfl, Or.inl ⟨rfl, by simp⟩⟩
  | cons c rest ih =>
    intro b
    by_cases hc : c.active = true
    · by_cases hv : value b < value c
      · obtain ⟨r, hr, hspec⟩ := ih c
        refine ⟨r, by simpa [selectLoop, hc, hv] using hr, Or.inr ?_⟩
        rcases hspec with ⟨rfl, hall⟩ | ⟨l1, l2, hsplit, hact, hlt, h1, h2⟩
        · exact ⟨[], rest, rfl, hc, hv, by simp, hall⟩
        · refine ⟨c :: l1, l2, by rw [hsplit]; rfl, hact, lt_trans hv hlt, ?_, h2⟩
          intro x hx hxa
          rcases List.mem_cons.1 hx with rfl | hx'
          · exact hlt
          · exact h1 x hx' hxa
      · obtain ⟨r, hr, hspec⟩ := ih b
        refine ⟨r, by simpa [selectLoop, hc, hv] using hr, ?_⟩
        rcases hspec with ⟨rfl, hall⟩ | ⟨l1, l2, hsplit, hact, hlt, h1, h2⟩
        · refine Or.inl ⟨rfl, ?_⟩
          intro x hx hxa
          rcases List.mem_cons.1 hx with rfl | hx'
          · exact le_of_not_lt hv
          · exact hall x hx' hxa
        · refine Or.inr ⟨c :: l1, l2, by rw [hsplit]; rfl, hact, hlt, ?_, h2⟩
          intro x hx hxa
          rcases List.mem_cons.1 hx with rfl | hx'
          · exact lt_of_le_of_lt (le_of_not_lt hv) hlt
          · exact h1 x hx' hxa
    · obtain ⟨r, hr, hspec⟩ := ih b
      refine ⟨r, by simpa [selectLoop, hc] using hr, ?_⟩
      rcases hspec with ⟨rfl, hall⟩ | ⟨l1, l2, hsplit, hact, hlt, h1, h2⟩
      · refine Or.inl ⟨rfl, ?_⟩
        intro x hx hxa
        rcases List.mem_cons.1 hx with rfl | hx'
        · exact absurd hxa hc
        · exact hall x hx' hxa
      · refine Or.inr ⟨c :: l1, l2, by rw [hsplit]; rfl, hact, hlt, ?_, h2⟩
        intro x hx hxa
        rcases List.mem_cons.1 hx with rfl | hx'
        · exact absurd hxa hc
        · exact h1 x hx' hxa

/-- Running `selectLoop` from an empty best: either there is no active child
and the result is `none`, or the result is the first active child attaining
the maximum value among the active children. -/
theorem selectLoop_none_spec (value : ChildSlot → ℚ) (l : List ChildSlot) :
    (selectLoop value l none = none ∧ ∀ c ∈ l, ¬ c.active = true) ∨
    (∃ r l1 l2, selectLoop value l none = some r ∧ l = l1 ++ r :: l2 ∧
      r.active = true ∧
      (∀ c ∈ l1, c.active = true → value c < value r) ∧
      (∀ c ∈ l2, c.active = true → value c ≤ value r)) := by
  induction l with
  | nil => exact Or.inl ⟨rfl, by simp⟩
  | cons c rest ih =>
    by_cases hc : c.active = true
    · right
      obtain ⟨r, hr, hspec⟩ := selectLoop_some_spec value rest c
      have heq : selectLoop value (c :: rest) none = some r := by
        simpa [selectLoop, hc] using hr
      rcases hspec with ⟨hrb, hall⟩ | ⟨l1, l2, hsplit, hact, hlt, h1, h2⟩
      · subst hrb
        exact ⟨r, [], rest, heq, rfl, hc, by simp, hall⟩
      · refine ⟨r, c :: l1, l2, heq, by rw [hsplit]; rfl, hact, ?_, h2⟩
        intro x hx hxa
        rcases List.mem_cons.1 hx with rfl | hx'
        · exact hlt
        · exact h1 x hx' hxa
    · rcases ih with ⟨hnone, hall⟩ | ⟨r, l1, l2, hr, hsplit, hact, h1, h2⟩
      · refine Or.inl ⟨by simpa [selectLoop, hc] using hnone, ?_⟩
        intro x hx
        rcases List.mem_cons.1 hx with rfl | hx'
        · exact hc
        · exact hall x hx'
      · refine Or.inr ⟨r, c :: l1, l2, by simpa [selectLoop, hc] using hr,
          by rw [hsplit]; rfl, hact, ?_, h2⟩
        intro x hx hxa
        rcases List.mem_cons.1 hx with rfl | hx'
        · exact absurd hxa hc
        · exact h1 x hx' hxa

/-- Characterization of the `accord_case_three` scan: either no child with
eval at or above the threshold has a static prior above the running `sp0`
and the state is unchanged, or the final state records the first child
attaining the maximum static prior among the children at or above the
threshold with static prior above `sp0`. -/
theorem c3Loop_spec (color : Color) (thr : ℚ) (l : List ChildSlot) :
    ∀ sp0 : ℚ, ∀ mv0 : ℤ, ∀ wr0 : ℚ,
      (c3Loop color thr l (sp0, mv0, wr0) = (sp0, mv0, wr0) ∧
        ∀ c ∈ l, thr ≤ c.get_eval color → c.get_static_sp ≤ sp0) ∨
      (∃ l1 c l2, l = l1 ++ c :: l2 ∧ thr ≤ c.get_eval color ∧
        sp0 < c.get_static_sp ∧
        c3Loop color thr l (sp0, mv0, wr0) =
          (c.get_static_sp, c.get_move, c.get_eval color) ∧
        (∀ x ∈ l1, thr ≤ x.get_eval color →
          x.get_static_sp < c.get_static_sp) ∧
        (∀ y ∈ l2, thr ≤ y.get_eval color →
          y.get_static_sp ≤ c.get_static_sp)) := by
  induction l with
  | nil =>
    intro sp0 mv0 wr0
    exact Or.inl ⟨rfl, by simp⟩
  | cons c rest ih =>
    intro sp0 mv0 wr0
    by_cases hupd : thr ≤ c.get_eval color ∧ sp0 < c.get_static_sp
    · have hstep : c3Loop color thr (c :: rest) (sp0, mv0, wr0) =
          c3Loop color thr rest
            (c.get_static_sp, c.get_move, c.get_eval color) := by
        simp [c3Loop, hupd]
      rcases ih c.get_static_sp c.get_move (c.get_eval color) with
        ⟨hres, hall⟩ | ⟨l1, d, l2, hsplit, hd, hgt, hres, h1, h2⟩
      · exact Or.inr ⟨[], c, rest, rfl, hupd.1, hupd.2,
          by rw [hstep, hres], by simp, hall⟩
      · refine Or.inr ⟨c :: l1, d, l2, by rw [hsplit]; rfl, hd,
          lt_trans hupd.2 hgt, by rw [hstep, hres], ?_, h2⟩
        intro x hx hxq
        rcases List.mem_cons.1 hx with rfl | hx'
        · exact hgt
        · exact h1 x hx' hxq
    · have hstep : c3Loop color thr (c :: rest) (sp0, mv0, wr0) =
          c3Loop color thr rest (sp0, mv0, wr0) := by
        simp [c3Loop, hupd]
      rcases ih sp0 mv0 wr0 with
        ⟨hres, hall⟩ | ⟨l1, d, l2, hsplit, hd, hgt, hres, h1, h2⟩
      · refine Or.inl ⟨by rw [hstep, hres], ?_⟩
        intro x hx hxq
        rcases List.mem_cons.1 hx with rfl | hx'
        · by_contra hlt
          exact hupd ⟨hxq, lt_of_not_le hlt⟩
        · exact hall x hx' hxq
      · refine Or.inr ⟨c :: l1, d, l2, by rw [hsplit]; rfl, hd, hgt,
          by rw [hstep, hres], ?_, h2⟩
        intro x hx hxq
        rcases List.mem_cons.1 hx with rfl | hx'
        · by_contra hge
          exact hupd ⟨hxq, lt_of_not_le fun hle =>
            hge (lt_of_le_of_lt hle hgt)⟩
        · exact h1 x hx' hxq

/-- Characterization of the `accord_case_three_one` scan: either no
candidate has winrate strictly below the running `wr0` and the recorded
move/winrate are unchanged, or they record the first candidate attaining
the minimum winrate among the candidates strictly below `wr0`. -/
theorem c31Loop_spec (color : Color) (aP1 aP2 aP3 aP4 : ℚ)
    (l : List ChildSlot) :
    ∀ flag0 : Bool, ∀ mv0 : ℤ, ∀ wr0 : ℚ,
      ((c31Loop color aP1 aP2 aP3 aP4 l (flag0, mv0, wr0)).2 = (mv0, wr0) ∧
        ∀ c ∈ l, c31Cand color aP1 aP2 aP3 aP4 c → wr0 ≤ c.get_eval color) ∨
      (∃ l1 c l2, l = l1 ++ c :: l2 ∧ c31Cand color aP1 aP2 aP3 aP4 c ∧
        c.get_eval color < wr0 ∧
        (c31Loop color aP1 aP2 aP3 aP4 l (flag0, mv0, wr0)).2 =
          (c.get_move, c.get_eval color) ∧
        (∀ x ∈ l1, c31Cand color aP1 aP2 aP3 aP4 x →
          c.get_eval color < x.get_eval color) ∧
        (∀ y ∈ l2, c31Cand color aP1 aP2 aP3 aP4 y →
          c.get_eval color ≤ y.get_eval color)) := by
  induction l with
  | nil =>
    intro flag0 mv0 wr0
    exact Or.inl ⟨rfl, by simp⟩
  | cons c rest ih =>
    intro flag0 mv0 wr0
    by_cases hcand : c31Cand color aP1 aP2 aP3 aP4 c
    · by_cases hlow : c.get_eval color < wr0
      · have hstep : c31Loop color aP1 aP2 aP3 aP4 (c :: rest)
            (flag0, mv0, wr0) =
            c31Loop color aP1 aP2 aP3 aP4 rest
              (true, c.get_move, c.get_eval color) := by
          simp [c31Loop, c31Cand] at hcand ⊢
          simp [hcand, hlow]
        rcases ih true c.get_move (c.get_eval color) with
          ⟨hres, hall⟩ | ⟨l1, d, l2, hsplit, hd, hlt, hres, h1, h2⟩
        · exact Or.inr ⟨[], c, rest, rfl, hcand, hlow,
            by rw [hstep, hres], by simp, hall⟩
        · refine Or.inr ⟨c :: l1, d, l2, by rw [hsplit]; rfl, hd,
            lt_trans hlt hlow, by rw [hstep, hres], ?_, h2⟩
          intro x hx hxq
          rcases List.mem_cons.1 hx with rfl | hx'
          · exact hlt
          · exact h1 x hx' hxq
      · have hstep : c31Loop color aP1 aP2 aP3 aP4 (c :: rest)
            (flag0, mv0, wr0) =
            c31Loop color aP1 aP2 aP3 aP4 rest (true, mv0, wr0) := by
          simp [c31Loop, c31Cand] at hcand ⊢
          simp [hcand, hlow]
        rcases ih true mv0 wr0 with
          ⟨hres, hall⟩ | ⟨l1, d, l2, hsplit, hd, hlt, hres, h1, h2⟩
        · refine Or.inl ⟨by rw [hstep, hres], ?_⟩
          intro x hx hxq
          rcases List.mem_cons.1 hx with rfl | hx'
          · exact le_of_not_lt hlow
          · exact hall x hx' hxq
        · refine Or.inr ⟨c :: l1, d, l2, by rw [hsplit]; rfl, hd, hlt,
            by rw [hstep, hres], ?_, h2⟩
          intro x hx hxq
          rcases List.mem_cons.1 hx with rfl | hx'
          · exact lt_of_lt_of_le hlt (le_of_not_lt hlow)
          · exact h1 x hx' hxq
    · have hstep : c31Loop color aP1 aP2 aP3 aP4 (c :: rest)
          (flag0, mv0, wr0) =
          c31Loop color aP1 aP2 aP3 aP4 rest (flag0, mv0, wr0) := by
        simp only [c31Cand] at hcand
        simp [c31Loop, hcand]
      rcases ih flag0 mv0 wr0 with
        ⟨hres, hall⟩ | ⟨l1, d, l2, hsplit, hd, hlt, hres, h1, h2⟩
      · refine Or.inl ⟨by rw [hstep, hres], ?_⟩
        intro x hx hxq
        rcases List.mem_cons.1 hx with rfl | hx'
        · exact absurd hxq hcand
        · exact hall x hx' hxq
      · refine Or.inr ⟨c :: l1, d, l2, by rw [hsplit]; rfl, hd, hlt,
          by rw [hstep, hres], ?_, h2⟩
        intro x hx hxq
        rcases List.mem_cons.1 hx with rfl | hx'
        · exact absurd hxq hcand
        · exact h1 x hx' hxq

/-! ### Claim C7: the `get_eval` formula -/

/-- C7 (confirmed): for every node with `visits + virtual_loss > 0`,
`get_eval(color)` equals `(black_eval_sum + (virtual_loss if color is White
else 0)) / (visits + virtual_loss)`, flipped to one minus that quotient for
White. -/
theorem get_eval_formula (n : UCTNode) (color : Color)
    (h : 0 < (n.m_visits : ℤ) + n.m_virtual_loss) :
    n.get_eval color =
      (if color = Color.white then
        1 - (n.m_blackevals + (n.m_virtual_loss : ℚ)) /
            ((n.m_visits : ℚ) + (n.m_virtual_loss : ℚ))
      else
        n.m_blackevals / ((n.m_visits : ℚ) + (n.m_virtual_loss : ℚ))) := by
  unfold UCTNode.get_eval UCTNode.get_raw_eval rawEvalCore
  cases color <;> simp

/-- Witness for C7 at `nodeW7` with White to move. -/
theorem get_eval_formula_witness :
    (0 : ℤ) < (nodeW7.m_visits : ℤ) + nodeW7.m_virtual_loss ∧
    nodeW7.get_eval Color.white =
      (if Color.white = Color.white then
        1 - (nodeW7.m_blackevals + (nodeW7.m_virtual_loss : ℚ)) /
            ((nodeW7.m_visits : ℚ) + (nodeW7.m_virtual_loss : ℚ))
      else
        nodeW7.m_blackevals /
          ((nodeW7.m_visits : ℚ) + (nodeW7.m_virtual_loss : ℚ))) :=
  ⟨by decide, get_eval_formula nodeW7 Color.white (by decide)⟩

/-- C8 counterexample: on a node with `visits = 1 > 0` but a nonzero
virtual loss, the Black and White evaluations sum to 1/4, not 1; the claim
`eval(Black) + eval(White) = 1` for `visits > 0` fails on the code. -/
theorem get_eval_color_sum_cex :
    0 < nodeC8.m_visits ∧
    nodeC8.get_eval Color.black + nodeC8.get_eval Color.white = 1/4 ∧
    ((1 : ℚ)/4 ≠ 1) := by
  refine ⟨by decide, ?_, by norm_num⟩
  have hne : Color.black ≠ Color.white := by decide
  norm_num [nodeC8, UCTNode.get_eval, UCTNode.get_raw_eval, rawEvalCore, hne]

/-- C8 (corrected): the color-flip law holds for every node with positive
visits *and no pending virtual loss*: `get_eval(Black) + get_eval(White) =
1` over exact rational arithmetic. -/
theorem get_eval_color_flip_no_vloss (n : UCTNode) (h1 : 0 < n.m_visits)
    (h2 : n.m_virtual_loss = 0) :
    n.get_eval Color.black + n.get_eval Color.white = 1 := by
  unfold UCTNode.get_eval UCTNode.get_raw_eval rawEvalCore
  simp [h2]

/-- Witness for the corrected C8 at `nodeW8`. -/
theorem get_eval_color_flip_no_vloss_witness :
    nodeW8.get_eval Color.black + nodeW8.get_eval Color.white = 1 :=
  get_eval_color_flip_no_vloss nodeW8 (by decide) (by decide)

/-! ### Claim C9: INVALID is absorbing -/

/-- Helper: `set_active` never writes the status of an invalidated node. -/
theorem set_active_preserves_invalid (m : UCTNode) (b : Bool)
    (h : m.m_status = Status.INVALID) :
    (m.set_active b).m_status = Status.INVALID := by
  unfold UCTNode.set_active UCTNode.valid
  simp [h]

/-- C9 (confirmed): once `invalidate()` has run, any sequence of
`set_active` calls leaves the status INVALID, so `valid()` stays false. -/
theorem invalid_absorbing (n : UCTNode) (bs : List Bool) :
    (bs.foldl UCTNode.set_active n.invalidate).m_status = Status.INVALID ∧
    (bs.foldl UCTNode.set_active n.invalidate).valid = false := by
  have key : ∀ (bs : List Bool) (m : UCTNode),
      m.m_status = Status.INVALID →
      (bs.foldl UCTNode.set_active m).m_status = Status.INVALID := by
    intro bs
    induction bs with
    | nil => intro m h; exact h
    | cons b rest ih =>
      intro m h
      exact ih (m.set_active b) (set_active_preserves_invalid m b h)
  have h0 : (n.invalidate).m_status = Status.INVALID := rfl
  have h1 := key bs n.invalidate h0
  exact ⟨h1, by simp [UCTNode.valid, h1]⟩

/-- C10 (confirmed): inside the selection loop of `uct_select_child` (whose
per-child computation is `childValue`, with `fpu_red`, `fpu_eval` and
`numerator` the loop constants computed by `uct_select_child`), the eval of
a child is only read when the child has at least one visit, so with a
nonnegative virtual loss the divisor `visits + virtual_loss` of
`get_raw_eval` is positive and the guarded computation never fails. -/
theorem uct_select_child_eval_guarded (cfg_puct fpu_red fpu_eval numerator : ℚ)
    (color : Color) (c : ChildSlot)
    (hvl : ∀ st, c.inflated = some st → 0 ≤ st.m_virtual_loss) :
    childValueChecked cfg_puct fpu_red fpu_eval numerator color c =
      some (childValue cfg_puct fpu_red fpu_eval numerator color c) := by
  unfold childValueChecked childValue
  by_cases hx : c.is_inflated = true ∧ c.expand_state = ExpandState.EXPANDING
  · simp [hx]
  · cases hinf : c.inflated with
    | none =>
      have hv : c.get_visits = 0 := by simp [ChildSlot.get_visits, hinf]
      simp [hx, hv]
    | some st =>
      by_cases hv : 0 < c.get_visits
      · have hvs : 0 < st.m_visits := by
          simpa [ChildSlot.get_visits, hinf] using hv
        have hpos : 0 < (st.m_visits : ℤ) + st.m_virtual_loss := by
          have := hvl st hinf
          omega
        simp [hx, hv, hinf, rawEvalCoreChecked, hpos, ChildSlot.get_eval,
          ChildStats.get_eval]
      · simp [hx, hv]

/-- Witness for C10 at `slotW10`. -/
theorem uct_select_child_eval_guarded_witness :
    childValueChecked (4/5) (1/8) (3/8) 1 Color.black slotW10 =
      some (childValue (4/5) (1/8) (3/8) 1 Color.black slotW10) :=
  uct_select_child_eval_guarded (4/5) (1/8) (3/8) 1 Color.black slotW10
    (by intro st hst; simp only [slotW10, Option.some.injEq] at hst;
        subst hst; decide)

/-! ### Claim C4: `create_children` when the progressive-widening test
fails -/

/-- C4 (corrected): when the INITIAL → EXPANDING compare-and-swap succeeds
but the progressive-widening test fails (`min_psa_ratio` is not below
`m_min_psa_ratio_children`), `create_children` calls `expand_done()` — so
the node ends in EXPANDED, not back in INITIAL — returns false, and leaves
the children (and every other field) unchanged. -/
theorem create_children_widening_fail_expand_done (net : NetResult)
    (passes : ℕ) (wtm : Bool) (n : UCTNode) (r : ℚ)
    (h1 : n.m_expand_state = ExpandState.INITIAL)
    (h2 : ¬ r < n.m_min_psa_ratio_children)
    (h3 : passes < 2) :
    UCTNode.create_children net passes wtm n r =
      (false, { n with m_expand_state := ExpandState.EXPANDED }) := by
  have hp : ¬ 2 ≤ passes := by omega
  simp [UCTNode.create_children, hp, h1, h2, UCTNode.expand_done]

/-- C4 counterexample: calling `create_children` with `min_psa_ratio = 1/10`
on `nodeC4` (INITIAL, widening already satisfied) wins the CAS, fails the
widening test, and leaves the node in EXPANDED — not reverted to INITIAL as
the claim states — with the children unchanged and `false` returned. -/
theorem create_children_no_revert_cex :
    (UCTNode.create_children netEmpty 0 false nodeC4 (1/10)).1 = false ∧
    (UCTNode.create_children netEmpty 0 false nodeC4 (1/10)).2.m_expand_state
      = ExpandState.EXPANDED ∧
    (UCTNode.create_children netEmpty 0 false nodeC4 (1/10)).2.m_children
      = nodeC4.m_children ∧
    nodeC4.m_expand_state = ExpandState.INITIAL ∧
    ExpandState.EXPANDED ≠ ExpandState.INITIAL := by
  refine ⟨?_, ?_, ?_, rfl, by decide⟩ <;>
    norm_num [UCTNode.create_children, nodeC4, UCTNode.expand_done]

/-- Witness for C4 at `nodeC4`. -/
theorem create_children_widening_fail_expand_done_witness :
    UCTNode.create_children netEmpty 0 false nodeC4 (1/10) =
      (false, { nodeC4 with m_expand_state := ExpandState.EXPANDED }) :=
  create_children_widening_fail_expand_done netEmpty 0 false nodeC4 (1/10)
    (by decide) (by norm_num [nodeC4]) (by decide)

/-! ### Claim C5: expand-state transitions -/

/-- C5 (corrected): every expand-state-writing operation of the source,
under the preconditions the source itself asserts for `expand_done` /
`expand_cancel`, performs either a transition of the spec's allowed set
(INITIAL→EXPANDING, EXPANDING→EXPANDED, EXPANDING→INITIAL, or a no-op) or
the additional transition EXPANDED→INITIAL taken by
`count_nodes_and_clear_expand_state` on a node that is still expandable. -/
theorem expand_state_transitions (n : UCTNode) (op : NodeOp)
    (hpre : op = NodeOp.expandDone ∨ op = NodeOp.expandCancel →
      n.m_expand_state = ExpandState.EXPANDING) :
    claimAllowedTransition n.m_expand_state (applyOp op n).m_expand_state ∨
      (n.m_expand_state = ExpandState.EXPANDED ∧
       (applyOp op n).m_expand_state = ExpandState.INITIAL ∧
       op = NodeOp.clearExpand ∧ n.expandable 0 = true) := by
  cases op with
  | acquireExpanding =>
    by_cases h : n.m_expand_state = ExpandState.INITIAL
    · refine Or.inl (Or.inr (Or.inl ⟨h, ?_⟩))
      simp [applyOp, UCTNode.acquire_expanding, h]
    · refine Or.inl (Or.inl ?_)
      simp [applyOp, UCTNode.acquire_expanding, h]
  | expandDone =>
    have hs := hpre (Or.inl rfl)
    exact Or.inl (Or.inr (Or.inr (Or.inl
      ⟨hs, by simp [applyOp, UCTNode.expand_done]⟩)))
  | expandCancel =>
    have hs := hpre (Or.inr rfl)
    exact Or.inl (Or.inr (Or.inr (Or.inr
      ⟨hs, by simp [applyOp, UCTNode.expand_cancel]⟩)))
  | clearExpand =>
    by_cases h : n.expandable 0 = true
    · have hres : (applyOp NodeOp.clearExpand n).m_expand_state =
          ExpandState.INITIAL := by
        simp [applyOp, UCTNode.count_nodes_and_clear_expand_state, h]
      cases hs : n.m_expand_state with
      | INITIAL => exact Or.inl (Or.inl (by rw [hres]))
      | EXPANDING => exact Or.inl (Or.inr (Or.inr (Or.inr ⟨rfl, hres⟩)))
      | EXPANDED => exact Or.inr ⟨rfl, hres, rfl, h⟩
    · refine Or.inl (Or.inl ?_)
      simp [applyOp, UCTNode.count_nodes_and_clear_expand_state, h]

/-- Witness for C5: the CAS on an EXPANDED node is a no-op (allowed as
`s = s'`). -/
theorem expand_state_transitions_witness :
    claimAllowedTransition nodeW8.m_expand_state
      (applyOp NodeOp.acquireExpanding nodeW8).m_expand_state ∨
      (nodeW8.m_expand_state = ExpandState.EXPANDED ∧
       (applyOp NodeOp.acquireExpanding nodeW8).m_expand_state =
         ExpandState.INITIAL ∧
       NodeOp.acquireExpanding = NodeOp.clearExpand ∧
       nodeW8.expandable 0 = true) :=
  expand_state_transitions nodeW8 NodeOp.acquireExpanding
    (fun h => absurd h (by decide))

/-- C5 counterexample: a fresh node partially expanded with
`min_psa_ratio = 1/10` ends EXPANDED and still expandable; running
`count_nodes_and_clear_expand_state` on it then moves it EXPANDED→INITIAL,
a transition outside the set stated by the claim. -/
theorem clear_expand_state_expanded_to_initial_cex :
    (UCTNode.create_children netC5 0 false nodeC5 (1/10)).1 = true ∧
    nodeC5x.m_expand_state = ExpandState.EXPANDED ∧
    0 < nodeC5x.m_min_psa_ratio_children ∧
    nodeC5x.count_nodes_and_clear_expand_state.m_expand_state =
      ExpandState.INITIAL ∧
    ¬ claimAllowedTransition ExpandState.EXPANDED ExpandState.INITIAL := by
  refine ⟨?_, ?_, ?_, ?_, by decide⟩ <;>
    norm_num [UCTNode.create_children, UCTNode.link_nodelist, sortDesc,
      insertDesc, pairLt, UCTNode.expand_done, UCTNode.expandable,
      UCTNode.count_nodes_and_clear_expand_state, nodeC5, netC5, nodeC5x,
      PASS]

/-! ### Claim C6: INVALID children and selection -/

/-- An active child slot is a valid child slot (ACTIVE is not INVALID). -/
theorem ChildSlot.active_valid (c : ChildSlot) (h : c.active = true) :
    c.valid = true := by
  unfold ChildSlot.active at h
  unfold ChildSlot.valid
  cases hinf : c.inflated with
  | none => rfl
  | some st =>
    rw [hinf] at h
    have : st.m_status = Status.ACTIVE := by simpa using h
    simp [this]

/-- C6 (corrected, the `uct_select_child` half): PUCT selection only ever
returns an active — hence valid, hence not INVALID — child: the selection
loop skips every child whose status is not ACTIVE. -/
theorem uct_select_child_never_invalid (sq : ℚ → ℚ) (cp cf cfr : ℚ)
    (n : UCTNode) (color : Color) (is_root : Bool) (c : ChildSlot)
    (h : uct_select_child sq cp cf cfr n color is_root = some c) :
    c.active = true ∧ c.valid = true := by
  unfold uct_select_child at h
  simp only at h
  rcases selectLoop_none_spec
      (childValue cp ((if is_root then cfr else cf) * sq n.total_visited_policy)
        (n.get_net_eval color -
          (if is_root then cfr else cf) * sq n.total_visited_policy)
        (sq ((n.parentvisits : ℚ))) color) n.m_children with
    ⟨hnone, _⟩ | ⟨r, l1, l2, hr, _, hact, _, _⟩
  · rw [hnone] at h; cases h
  · rw [hr] at h
    obtain rfl : r = c := Option.some.inj h
    exact ⟨hact, ChildSlot.active_valid r hact⟩

/-- Witness for the corrected C6 at `nodeW6`. -/
theorem uct_select_child_never_invalid_witness :
    slotW10.active = true ∧ slotW10.valid = true :=
  uct_select_child_never_invalid (fun _ => 0) 0 0 0 nodeW6 Color.black false
    slotW10 rfl

/-- C6 counterexample: `get_best_root_child` ranks children with `NodeComp`
only (visits, then policy or eval) and never consults the status, so on
`nodeC6` it returns the INVALID child even though a valid sibling exists;
the claim that final-move logic never returns an INVALID child fails. -/
theorem get_best_root_child_invalid_cex :
    get_best_root_child nodeC6 Color.black = some slotC6inv ∧
    slotC6inv.valid = false ∧
    slotC6act ∈ nodeC6.m_children ∧
    slotC6act.valid = true := by
  refine ⟨rfl, rfl, ?_, rfl⟩
  simp [nodeC6]

/-! ### Claim C2: strength control Case C (`accord_case_three`) -/

/-- Evaluation helper: `rawEvalCore` for Black. -/
theorem rawEvalCore_black (v : ℕ) (s : ℚ) (vl : ℤ) :
    rawEvalCore v s Color.black vl = s / ((v : ℚ) + (vl : ℚ)) := by
  simp [rawEvalCore]

/-- Evaluation helper: `rawEvalCore` for White. -/
theorem rawEvalCore_white (v : ℕ) (s : ℚ) (vl : ℤ) :
    rawEvalCore v s Color.white vl =
      1 - (s + (vl : ℚ)) / ((v : ℚ) + (vl : ℚ)) := by
  simp [rawEvalCore]

/-- C2 (corrected): whenever some child reaches the winrate threshold and
has a strictly positive static prior, `accord_case_three` records the move
and winrate of the first child attaining the maximum static prior among the
children whose winrate reaches the threshold — with no visit-count
requirement — and sets the `case_three` flag. -/
theorem accord_case_three_picks_max_static_prior (n : UCTNode)
    (color : Color) (thr : ℚ)
    (hq : ∃ c ∈ n.m_children, thr ≤ c.get_eval color ∧ 0 < c.get_static_sp) :
    (n.accord_case_three color thr).case_three = true ∧
    ∃ l1 c l2, n.m_children = l1 ++ c :: l2 ∧ thr ≤ c.get_eval color ∧
      0 < c.get_static_sp ∧
      (n.accord_case_three color thr).case_three_move = c.get_move ∧
      (n.accord_case_three color thr).case_three_winrate = c.get_eval color ∧
      (∀ x ∈ l1, thr ≤ x.get_eval color →
        x.get_static_sp < c.get_static_sp) ∧
      (∀ y ∈ l2, thr ≤ y.get_eval color →
        y.get_static_sp ≤ c.get_static_sp) := by
  rcases c3Loop_spec color thr n.m_children 0 n.case_three_move
      n.case_three_winrate with
    ⟨hres, hall⟩ | ⟨l1, c, l2, hsplit, hc, hpos, hres, h1, h2⟩
  · exfalso
    obtain ⟨c, hmem, hthr, hsp⟩ := hq
    exact absurd (hall c hmem hthr) (not_le.2 hsp)
  · refine ⟨by simp [UCTNode.accord_case_three], l1, c, l2, hsplit, hc, hpos,
      ?_, ?_, h1, h2⟩
    · simp [UCTNode.accord_case_three, hres]
    · simp [UCTNode.accord_case_three, hres]

/-- Witness for the corrected C2 at `nodeW2` with threshold 1/2. -/
theorem accord_case_three_picks_max_static_prior_witness :
    (nodeW2.accord_case_three Color.black (1/2)).case_three = true ∧
    ∃ l1 c l2, nodeW2.m_children = l1 ++ c :: l2 ∧
      (1 : ℚ)/2 ≤ c.get_eval Color.black ∧
      0 < c.get_static_sp ∧
      (nodeW2.accord_case_three Color.black (1/2)).case_three_move =
        c.get_move ∧
      (nodeW2.accord_case_three Color.black (1/2)).case_three_winrate =
        c.get_eval Color.black ∧
      (∀ x ∈ l1, (1 : ℚ)/2 ≤ x.get_eval Color.black →
        x.get_static_sp < c.get_static_sp) ∧
      (∀ y ∈ l2, (1 : ℚ)/2 ≤ y.get_eval Color.black →
        y.get_static_sp ≤ c.get_static_sp) :=
  accord_case_three_picks_max_static_prior nodeW2 Color.black (1/2)
    ⟨slotW2, by simp [nodeW2],
      by norm_num [ChildSlot.get_eval, ChildStats.get_eval, slotW2, statsW2,
        rawEvalCore_black],
      by norm_num [ChildSlot.get_static_sp, slotW2, statsW2]⟩

/-- C2 counterexample: `accord_case_three` has no 10-visit filter, so on
`nodeC2` it records the move 20 of the 3-visit child (the one with the
highest static prior above the threshold), while the claim — which admits
only children with at least 10 visits — demands move 10. -/
theorem accord_case_three_claim_cex :
    (nodeC2.accord_case_three Color.black (1/2 - t_dif)).case_three_move
      = 20 ∧
    selectC2spec nodeC2 Color.black (1/2 - t_dif) = some 10 ∧
    ((20 : ℤ) ≠ 10) ∧
    (nodeC2.m_children.map fun c => c.get_eval Color.black)
      = [1/2, 49/100] ∧
    (nodeC2.m_children.map ChildSlot.get_visits) = [100, 3] ∧
    t_min ≤ (1 : ℚ)/2 ∧ (1 : ℚ)/2 ≤ t_max := by
  refine ⟨?_, ?_, by decide, ?_, by decide, ?_, ?_⟩
  · norm_num [UCTNode.accord_case_three, c3Loop, nodeC2, slotC2top,
      slotC2low, statsC2top, statsC2low, ChildSlot.get_eval,
      ChildStats.get_eval, ChildSlot.get_static_sp, ChildSlot.get_move,
      rawEvalCore_black, t_dif, c_param]
  · norm_num [selectC2spec, nodeC2, slotC2top, slotC2low, statsC2top,
      statsC2low, ChildSlot.get_eval, ChildStats.get_eval,
      ChildSlot.get_static_sp, ChildSlot.get_move, ChildSlot.get_visits,
      rawEvalCore_black, t_dif, c_param, List.filter]
  · norm_num [nodeC2, slotC2top, slotC2low, statsC2top, statsC2low,
      ChildSlot.get_eval, ChildStats.get_eval, rawEvalCore_black]
  · norm_num [t_min]
  · norm_num [t_max]

/-- C3 (corrected): `accord_case_three_one` starts its selection at the top
child with its winrate `W1` and replaces it only by candidates (≥ 10 visits,
one of the four bands hit) with strictly smaller winrate.  Hence: if no
candidate's winrate is below `W1`, the top child's move and `W1` are
recorded; otherwise the recorded move is that of the first candidate
attaining the minimum candidate winrate. -/
theorem accord_case_three_one_picks_min_winrate (n : UCTNode)
    (color : Color) (c0 : ChildSlot) (rest : List ChildSlot)
    (hch : n.m_children = c0 :: rest) :
    ((∀ c ∈ n.m_children, c31CandAt color (c0.get_eval color) c →
        c0.get_eval color ≤ c.get_eval color) →
      (n.accord_case_three_one color).case_three_move = c0.get_move ∧
      (n.accord_case_three_one color).case_three_winrate =
        c0.get_eval color) ∧
    ((∃ c ∈ n.m_children, c31CandAt color (c0.get_eval color) c ∧
        c.get_eval color < c0.get_eval color) →
      ∃ l1 c l2, n.m_children = l1 ++ c :: l2 ∧
        c31CandAt color (c0.get_eval color) c ∧
        c.get_eval color < c0.get_eval color ∧
        (n.accord_case_three_one color).case_three_move = c.get_move ∧
        (n.accord_case_three_one color).case_three_winrate =
          c.get_eval color ∧
        (∀ x ∈ l1, c31CandAt color (c0.get_eval color) x →
          c.get_eval color < x.get_eval color) ∧
        (∀ y ∈ l2, c31CandAt color (c0.get_eval color) y →
          c.get_eval color ≤ y.get_eval color)) := by
  have hproj : ∀ m : ℤ, ∀ w : ℚ,
      (c31Loop color (c0.get_eval color - 3/100 * c_param)
          (c0.get_eval color - 4/100 * c_param)
          (c0.get_eval color - 6/100 * c_param)
          (c0.get_eval color - 8/100 * c_param) n.m_children
          (n.case_three, c0.get_move, c0.get_eval color)).2 = (m, w) →
      (n.accord_case_three_one color).case_three_move = m ∧
      (n.accord_case_three_one color).case_three_winrate = w := by
    intro m w hmw
    rw [hch] at hmw
    constructor <;>
      · simp only [UCTNode.accord_case_three_one, hch]
        rw [hmw]
  rcases c31Loop_spec color (c0.get_eval color - 3/100 * c_param)
      (c0.get_eval color - 4/100 * c_param)
      (c0.get_eval color - 6/100 * c_param)
      (c0.get_eval color - 8/100 * c_param) n.m_children
      n.case_three c0.get_move (c0.get_eval color) with
    ⟨hres, hall⟩ | ⟨l1, c, l2, hsplit, hc, hlt, hres, h1, h2⟩
  · constructor
    · intro _
      exact hproj c0.get_move (c0.get_eval color) hres
    · intro hB
      exfalso
      obtain ⟨c, hmem, hcand, hclt⟩ := hB
      exact absurd (hall c hmem hcand) (not_le.2 hclt)
  · constructor
    · intro hA
      exfalso
      have hmem : c ∈ n.m_children := by
        rw [hsplit]; exact List.mem_append.2 (Or.inr (List.mem_cons_self c l2))
      exact absurd (hA c hmem hc) (not_le.2 hlt)
    · intro _
      obtain ⟨hm, hw⟩ := hproj c.get_move (c.get_eval color) hres
      exact ⟨l1, c, l2, hsplit, hc, hlt, hm, hw, h1, h2⟩

/-- Witness for the corrected C3 at `nodeW3` (no candidate is below the top
winrate, so the top child is kept). -/
theorem accord_case_three_one_picks_min_winrate_witness :
    (nodeW3.accord_case_three_one Color.black).case_three_move =
      slotW3.get_move ∧
    (nodeW3.accord_case_three_one Color.black).case_three_winrate =
      slotW3.get_eval Color.black :=
  (accord_case_three_one_picks_min_winrate nodeW3 Color.black slotW3 []
      rfl).1
    (by intro c hc _
        have : c = slotW3 := by simpa [nodeW3] using hc
        rw [this])

/-- C3 counterexample: on `nodeC3` the claim's candidate set is exactly the
second child (move 20), so the claim demands the lowest-winrate candidate,
move 20; but the code only replaces its initial selection (the top child)
on *strictly* lower winrates, and the candidate's winrate equals `W1`, so
`accord_case_three_one` keeps move 10. -/
theorem accord_case_three_one_claim_cex :
    (nodeC3.accord_case_three_one Color.black).case_three_move = 10 ∧
    selectC3spec nodeC3 Color.black = some 20 ∧
    ((10 : ℤ) ≠ 20) ∧
    (nodeC3.m_children.map fun c => c.get_eval Color.black)
      = [7/10, 7/10] ∧
    (nodeC3.m_children.map ChildSlot.get_visits) = [100, 50] ∧
    (nodeC3.m_children.map ChildSlot.get_static_sp) = [1/100, 1/5] ∧
    t_max < (7 : ℚ)/10 := by
  refine ⟨?_, ?_, by decide, ?_, by decide, ?_, ?_⟩
  · norm_num [UCTNode.accord_case_three_one, c31Loop, c31BandHit, nodeC3,
      slotC3top, slotC3low, statsC3top, statsC3low, ChildSlot.get_eval,
      ChildStats.get_eval, ChildSlot.get_static_sp, ChildSlot.get_move,
      ChildSlot.get_visits, rawEvalCore_black, c_param]
  · norm_num [selectC3spec, c3BandHitSpec, nodeC3, slotC3top, slotC3low,
      statsC3top, statsC3low, ChildSlot.get_eval, ChildStats.get_eval,
      ChildSlot.get_static_sp, ChildSlot.get_move, ChildSlot.get_visits,
      rawEvalCore_black, List.filter]
  · norm_num [nodeC3, slotC3top, slotC3low, statsC3top, statsC3low,
      ChildSlot.get_eval, ChildStats.get_eval, rawEvalCore_black]
  · norm_num [nodeC3, slotC3top, slotC3low, statsC3top, statsC3low,
      ChildSlot.get_static_sp]
  · norm_num [t_max]

/-! ### Claim C1: PUCT selection -/

/-- `specValueC1` coincides with the loop body of `uct_select_child` at the
loop constants that function computes. -/
theorem specValueC1_eq (sq : ℚ → ℚ) (cp cf cfr : ℚ) (n : UCTNode)
    (color : Color) (is_root : Bool) (c : ChildSlot) :
    specValueC1 sq cp cf cfr n color is_root c =
      childValue cp ((if is_root then cfr else cf) * sq n.total_visited_policy)
        (n.get_net_eval color -
          (if is_root then cfr else cf) * sq n.total_visited_policy)
        (sq ((n.parentvisits : ℚ))) color c := rfl

/-- C1 (corrected): on an EXPANDED node with at least one active child,
`uct_select_child` returns the first active child attaining the maximum of
`winrate + cfg_puct * prior * sqrt(P) / (1 + visits)` over the active
children, where `P` sums the visits of the valid children and the winrate
cases are as the spec states them — with the FPU prior sum restricted to
*valid* visited children and the EXPANDING case taking precedence over the
zero-visit case where they overlap. -/
theorem uct_select_child_first_max (sq : ℚ → ℚ) (cp cf cfr : ℚ)
    (n : UCTNode) (color : Color) (is_root : Bool)
    (hexp : n.m_expand_state = ExpandState.EXPANDED)
    (hact : ∃ c ∈ n.m_children, c.active = true) :
    ∃ r l1 l2,
      uct_select_child sq cp cf cfr n color is_root = some r ∧
      n.m_children = l1 ++ r :: l2 ∧
      r.active = true ∧
      (∀ c ∈ n.m_children, c.active = true →
        specValueC1 sq cp cf cfr n color is_root c ≤
          specValueC1 sq cp cf cfr n color is_root r) ∧
      (∀ c ∈ l1, c.active = true →
        specValueC1 sq cp cf cfr n color is_root c <
          specValueC1 sq cp cf cfr n color is_root r) := by
  rcases selectLoop_none_spec
      (childValue cp ((if is_root then cfr else cf) * sq n.total_visited_policy)
        (n.get_net_eval color -
          (if is_root then cfr else cf) * sq n.total_visited_policy)
        (sq ((n.parentvisits : ℚ))) color) n.m_children with
    ⟨hnone, hnoact⟩ | ⟨r, l1, l2, hr, hsplit, hactr, h1, h2⟩
  · exfalso
    obtain ⟨c, hc, hca⟩ := hact
    exact hnoact c hc hca
  · refine ⟨r, l1, l2, hr, hsplit, hactr, ?_, ?_⟩
    · intro c hc hca
      rw [specValueC1_eq, specValueC1_eq]
      rw [hsplit] at hc
      rcases List.mem_append.1 hc with hc1 | hc2
      · exact le_of_lt (h1 c hc1 hca)
      · rcases List.mem_cons.1 hc2 with rfl | hc3
        · exact le_refl _
        · exact h2 c hc3 hca
    · intro c hc hca
      rw [specValueC1_eq, specValueC1_eq]
      exact h1 c hc hca

/-- Witness for the corrected C1 at `nodeW6` (single active child). -/
theorem uct_select_child_first_max_witness :
    ∃ r l1 l2,
      uct_select_child (fun q => q) (4/5) (1/4) (1/4) nodeW6 Color.black
        true = some r ∧
      nodeW6.m_children = l1 ++ r :: l2 ∧
      r.active = true ∧
      (∀ c ∈ nodeW6.m_children, c.active = true →
        specValueC1 (fun q => q) (4/5) (1/4) (1/4) nodeW6 Color.black true
            c ≤
          specValueC1 (fun q => q) (4/5) (1/4) (1/4) nodeW6 Color.black true
            r) ∧
      (∀ c ∈ l1, c.active = true →
        specValueC1 (fun q => q) (4/5) (1/4) (1/4) nodeW6 Color.black true
            c <
          specValueC1 (fun q => q) (4/5) (1/4) (1/4) nodeW6 Color.black true
            r) :=
  uct_select_child_first_max (fun q => q) (4/5) (1/4) (1/4) nodeW6
    Color.black true rfl ⟨slotW10, by simp [nodeW6], rfl⟩

/-- Constructor disequality used when evaluating concrete nodes. -/
theorem status_ACTIVE_ne_INVALID : Status.ACTIVE ≠ Status.INVALID := by decide

/-- Constructor disequality used when evaluating concrete nodes. -/
theorem status_INVALID_ne_ACTIVE : Status.INVALID ≠ Status.ACTIVE := by decide

/-- Constructor disequality used when evaluating concrete nodes. -/
theorem expand_EXPANDED_ne_EXPANDING :
    ExpandState.EXPANDED ≠ ExpandState.EXPANDING := by decide

/-- Constructor disequality used when evaluating concrete nodes. -/
theorem expand_INITIAL_ne_EXPANDING :
    ExpandState.INITIAL ≠ ExpandState.EXPANDING := by decide

/-- C1 counterexample: the code sums the priors of *valid* visited children
(1/4, so `fpu_reduction = 1/4 * 1/2`), while the claim's literal
`total_visited_prior` sums over all visited children including the INVALID
one (9/16, giving `1/4 * 3/4`).  With the claim's FPU the visited child
(value 2/5) beats the fresh slot (value 29/80), yet the code returns the
fresh slot — so the returned child does not maximize the claim's stated
value over the active children.  The `sqrtC1` facts certify that it is the
exact square root on every value it is applied to here. -/
theorem uct_select_child_claim_cex :
    sqrtC1 (1/4) * sqrtC1 (1/4) = 1/4 ∧
    sqrtC1 (9/16) * sqrtC1 (9/16) = 9/16 ∧
    sqrtC1 1 * sqrtC1 1 = 1 ∧
    0 ≤ sqrtC1 (1/4) ∧ 0 ≤ sqrtC1 (9/16) ∧ 0 ≤ sqrtC1 1 ∧
    nodeC1.total_visited_policy = 1/4 ∧
    total_visited_policy_claim nodeC1 = 9/16 ∧
    nodeC1.parentvisits = 1 ∧
    uct_select_child sqrtC1 (4/5) (1/4) (1/4) nodeC1 Color.black false =
      some slotC1new ∧
    slotC1vis ∈ nodeC1.m_children ∧
    slotC1vis.active = true ∧
    claimValueC1 sqrtC1 (4/5) (1/4) (1/4) nodeC1 Color.black false
        slotC1new <
      claimValueC1 sqrtC1 (4/5) (1/4) (1/4) nodeC1 Color.black false
        slotC1vis := by
  refine ⟨by norm_num [sqrtC1], by norm_num [sqrtC1], by norm_num [sqrtC1],
    by norm_num [sqrtC1], by norm_num [sqrtC1], by norm_num [sqrtC1],
    ?_, ?_, ?_, ?_, by simp [nodeC1], rfl, ?_⟩
  · norm_num [UCTNode.total_visited_policy, nodeC1, slotC1inv, slotC1vis,
      slotC1new, statsC1inv, statsC1vis, ChildSlot.valid,
      ChildSlot.get_visits, ChildSlot.get_policy, List.filter_cons, List.filter_nil,
      status_ACTIVE_ne_INVALID, status_INVALID_ne_ACTIVE,
      expand_EXPANDED_ne_EXPANDING, expand_INITIAL_ne_EXPANDING]
  · norm_num [total_visited_policy_claim, nodeC1, slotC1inv, slotC1vis,
      slotC1new, statsC1inv, statsC1vis, ChildSlot.get_visits,
      ChildSlot.get_policy, List.filter_cons, List.filter_nil,
      status_ACTIVE_ne_INVALID, status_INVALID_ne_ACTIVE,
      expand_EXPANDED_ne_EXPANDING, expand_INITIAL_ne_EXPANDING]
  · norm_num [UCTNode.parentvisits, nodeC1, slotC1inv, slotC1vis,
      slotC1new, statsC1inv, statsC1vis, ChildSlot.valid,
      ChildSlot.get_visits, List.filter_cons, List.filter_nil,
      status_ACTIVE_ne_INVALID, status_INVALID_ne_ACTIVE,
      expand_EXPANDED_ne_EXPANDING, expand_INITIAL_ne_EXPANDING]
  · norm_num [uct_select_child, selectLoop, childValue, nodeC1, slotC1inv,
      slotC1vis, slotC1new, statsC1inv, statsC1vis, ChildSlot.valid,
      ChildSlot.active, ChildSlot.get_visits, ChildSlot.get_policy,
      ChildSlot.get_eval, ChildSlot.is_inflated, ChildSlot.expand_state,
      ChildStats.get_eval, rawEvalCore_black, UCTNode.get_net_eval,
      UCTNode.total_visited_policy, UCTNode.parentvisits,
      total_visited_policy_claim, sqrtC1, List.filter_cons, List.filter_nil,
      status_ACTIVE_ne_INVALID, status_INVALID_ne_ACTIVE,
      expand_EXPANDED_ne_EXPANDING, expand_INITIAL_ne_EXPANDING]
  · norm_num [claimValueC1, nodeC1, slotC1inv, slotC1vis, slotC1new,
      statsC1inv, statsC1vis, ChildSlot.valid, ChildSlot.active,
      ChildSlot.get_visits, ChildSlot.get_policy, ChildSlot.get_eval,
      ChildSlot.is_inflated, ChildSlot.expand_state, ChildStats.get_eval,
      rawEvalCore_black, UCTNode.get_net_eval, UCTNode.total_visited_policy,
      UCTNode.parentvisits, total_visited_policy_claim, sqrtC1, List.filter_cons, List.filter_nil,
      status_ACTIVE_ne_INVALID, status_INVALID_ne_ACTIVE,
      expand_EXPANDED_ne_EXPANDING, expand_INITIAL_ne_EXPANDING]

end LZ
